import Mathlib

/-
  Verification of the voice food logger backend (Python sources under
  backend/). The definitions below are a shallow embedding of:
    - backend/shared/processing.py    (quantity parsing, macro scaling,
      local nutrition lookup, source chain)
    - backend/shared/usda_client.py   (gram normalization, remote fallback)
    - backend/shared/meal_detection.py
    - backend/shared/supabase_storage.py (totals, grouping, quantity update)
    - backend/api/calorie-history.py  (period series)

  Numbers: every constant and every operation of the pipeline (decimal
  literals, sums, products, division by powers of ten, rounding) stays
  inside the subring of the rationals generated by one tenth. Python
  floats are therefore modelled exactly by the type Dec below: an integer
  mantissa over a power of ten, kept in a canonical form so that equality
  of values is structural equality. The toRat lemmas further down prove
  the arithmetic agrees with rational arithmetic. Python round (half to
  even) is modelled exactly. Database and remote results are explicit
  inputs.
-/

/-! ## Exact decimal numbers -/

/-- A decimal number m over 10 to the e. Values produced by the
operations below are canonical: e is least possible (no factor of ten
left in m unless e is zero), so equality of values is structural. -/
structure Dec where
  m : ℤ
  e : ℕ
deriving DecidableEq, Repr

/-- Remove common factors of ten from mantissa and exponent. -/
def normAux (m : ℤ) : ℕ → ℤ × ℕ
  | 0 => (m, 0)
  | e + 1 => if m.emod 10 = 0 then normAux (m.ediv 10) e else (m, e + 1)

/-- Canonical form of a decimal. -/
def Dec.norm (a : Dec) : Dec :=
  ⟨(normAux a.m a.e).1, (normAux a.m a.e).2⟩

/-- Decimal literal: dec m e is m over 10 to the e, canonicalized. -/
def dec (m : ℤ) (e : ℕ) : Dec := Dec.norm ⟨m, e⟩

/-- Embed an integer. -/
def Dec.ofInt (n : ℤ) : Dec := ⟨n, 0⟩

instance : Zero Dec := ⟨⟨0, 0⟩⟩

def Dec.add (a b : Dec) : Dec :=
  Dec.norm ⟨a.m * (10 : ℤ) ^ b.e + b.m * (10 : ℤ) ^ a.e, a.e + b.e⟩

def Dec.neg (a : Dec) : Dec := ⟨-a.m, a.e⟩

def Dec.sub (a b : Dec) : Dec := Dec.add a (Dec.neg b)

def Dec.mul (a b : Dec) : Dec := Dec.norm ⟨a.m * b.m, a.e + b.e⟩

/-- Exact division by 10 to the k. -/
def Dec.shr (a : Dec) (k : ℕ) : Dec := Dec.norm ⟨a.m, a.e + k⟩

/-- Value order, by cross multiplication. -/
def Dec.lt (a b : Dec) : Prop := a.m * (10 : ℤ) ^ b.e < b.m * (10 : ℤ) ^ a.e

instance : LT Dec := ⟨Dec.lt⟩

instance (a b : Dec) : Decidable (a < b) := Int.decLt _ _

/-- Floor of the value as an integer. -/
def Dec.floorInt (a : Dec) : ℤ := Int.fdiv a.m ((10 : ℤ) ^ a.e)

/-- Python round(x): round half to even, returning an integer. -/
def pyRound (q : Dec) : ℤ :=
  let f := Dec.floorInt q
  let r := Dec.sub q (Dec.ofInt f)
  if r < dec 5 1 then f
  else if dec 5 1 < r then f + 1
  else if f.emod 2 = 0 then f else f + 1

/-- Python round(x, 1): round half to even at one decimal place. -/
def pyRound1 (q : Dec) : Dec :=
  dec (pyRound (Dec.mul q (Dec.ofInt 10))) 1

/-! ## String helpers mirroring Python semantics -/

/-- Contiguous-sublist test on character lists. -/
def listInfix (needle : List Char) : List Char → Bool
  | [] => needle.isEmpty
  | c :: cs => needle.isPrefixOf (c :: cs) || listInfix needle cs

/-- Python substring test: needle in hay, on character lists. -/
def charsContain (hay needle : List Char) : Bool :=
  listInfix needle hay

/-- Python str.lower() restricted to ASCII, which is all the code uses. -/
def lowerChars (cs : List Char) : List Char :=
  cs.map Char.toLower

/-- Python str.strip(): drop whitespace from both ends. -/
def trimChars (cs : List Char) : List Char :=
  ((cs.dropWhile Char.isWhitespace).reverse.dropWhile Char.isWhitespace).reverse

/-- The lower().strip() preprocessing the quantity parsing functions and
the local lookup apply, as a character list. -/
def lowerTrim (s : String) : List Char :=
  trimChars (lowerChars s.toList)

/-- Numeric value of a digit run (most significant first). -/
def digitsVal (ds : List Char) : ℕ :=
  ds.foldl (fun a c => 10 * a + (c.toNat - 48)) 0

/-- Parse the regex match of (digits)(optional dot)(digits) starting
here, as the Python float() of the matched text, which is exactly a
decimal. -/
def parseNumFrom (cs : List Char) : Dec :=
  let ds := cs.takeWhile Char.isDigit
  let rest := cs.dropWhile Char.isDigit
  match rest with
  | '.' :: rest2 =>
      let fs := rest2.takeWhile Char.isDigit
      dec ((digitsVal ds : ℤ) * (10 : ℤ) ^ fs.length + (digitsVal fs : ℤ)) fs.length
  | _ => Dec.ofInt (digitsVal ds)

/-- First match of the regex for numbers anywhere in the text, as used by
re.findall in processing.py and usda_client.py (first element taken). -/
def firstNumber : List Char → Option Dec
  | [] => none
  | c :: cs => if c.isDigit then some (parseNumFrom (c :: cs)) else firstNumber cs

/-! ## Data model -/

/-- Per-100g nutrition record (values in the local database). -/
structure NutritionData where
  calories : Dec
  protein_g : Dec
  carbs_g : Dec
  fat_g : Dec
deriving DecidableEq, Repr

/-- Nutrition result carrying a provenance tag, the dict shape returned
by the lookup chain. -/
structure NutritionResult where
  calories : Dec
  protein_g : Dec
  carbs_g : Dec
  fat_g : Dec
  source : String
deriving DecidableEq, Repr

/-- Attach a source tag to a nutrition record. -/
def withSource (n : NutritionData) (s : String) : NutritionResult :=
  ⟨n.calories, n.protein_g, n.carbs_g, n.fat_g, s⟩

/-- The local nutrition database: keys in insertion order, as a Python
dict preserves it. -/
def LocalDB := List (String × NutritionData)

/-! ## processing.py -/

/-- processing.py _parse_quantity: fraction words checked first, then the
first numeric token, default 1.0. -/
def parse_quantity (quantity_str : String) : Dec :=
  let q := lowerTrim quantity_str
  if charsContain q "half".toList || charsContain q "0.5".toList then dec 5 1
  else if charsContain q "quarter".toList || charsContain q "0.25".toList then dec 25 2
  else
    match firstNumber q with
    | some v => v
    | none => Dec.ofInt 1

/-- processing.py _calculate_macros: scaling factor in per-100g units
from the keyword chain, then rounding (calories to integer, others to one
decimal). -/
def calculate_macros (n : NutritionData) (quantity_str : String) : NutritionData :=
  let v := parse_quantity quantity_str
  let ql := lowerChars quantity_str.toList
  let sf :=
    if charsContain ql "kilogram".toList || charsContain ql "kilo".toList then
      Dec.mul v (Dec.ofInt 10)
    else if charsContain ql "gram".toList then Dec.shr v 2
    else if charsContain ql "cup".toList then Dec.mul v (dec 15 1)
    else if charsContain ql "tablespoon".toList then Dec.mul v (dec 15 2)
    else if charsContain ql "scoop".toList then Dec.mul v (dec 3 1)
    else if charsContain ql "piece".toList || charsContain ql "not specified".toList then
      Dec.mul v (Dec.ofInt 1)
    else if charsContain ql "pound".toList then Dec.mul v (dec 454 2)
    else v
  { calories := Dec.ofInt (pyRound (Dec.mul n.calories sf))
    protein_g := pyRound1 (Dec.mul n.protein_g sf)
    carbs_g := pyRound1 (Dec.mul n.carbs_g sf)
    fat_g := pyRound1 (Dec.mul n.fat_g sf) }

/-- processing.py _lookup_local_nutrition: exact match on the lowered and
trimmed name first, then the first entry in table order where either name
is a substring of the other, else an all-zero record tagged not_found. -/
def lookup_local_nutrition (db : LocalDB) (food_name quantity : String) : NutritionResult :=
  let key := lowerTrim food_name
  match List.find? (fun p => p.1.toList == key) db with
  | some p => withSource (calculate_macros p.2 quantity) "local_database"
  | none =>
    match List.find? (fun p => charsContain p.1.toList key || charsContain key p.1.toList) db with
    | some p => withSource (calculate_macros p.2 quantity) "local_database"
    | none => ⟨0, 0, 0, 0, "not_found"⟩

/-- processing.py _lookup_nutrition: the source chain. The remote outcome
is an explicit input: none models a raised exception or falsy result,
some models the returned dict, which is used only when tagged usda. -/
def lookup_nutrition (remote : Option NutritionResult) (db : LocalDB)
    (food_name quantity : String) : NutritionResult :=
  match remote with
  | some r => if r.source = "usda" then r else lookup_local_nutrition db food_name quantity
  | none => lookup_local_nutrition db food_name quantity

/-! ## usda_client.py -/

/-- usda_client.py parse_quantity_to_grams: first numeric token with a
unit keyword chain; 100 when no number is present. -/
def parse_quantity_to_grams (quantity_str : String) : Dec :=
  let q := lowerTrim quantity_str
  match firstNumber q with
  | none => Dec.ofInt 100
  | some v =>
    if charsContain q "g".toList && !(charsContain q "kg".toList) then v
    else if charsContain q "kg".toList then Dec.mul v (Dec.ofInt 1000)
    else if charsContain q "cup".toList then Dec.mul v (Dec.ofInt 150)
    else if charsContain q "tablespoon".toList || charsContain q "tbsp".toList then
      Dec.mul v (Dec.ofInt 15)
    else if charsContain q "teaspoon".toList || charsContain q "tsp".toList then
      Dec.mul v (Dec.ofInt 5)
    else if charsContain q "oz".toList then Dec.mul v (dec 2835 2)
    else if charsContain q "lb".toList || charsContain q "pound".toList then
      Dec.mul v (dec 4536 1)
    else v

/-! ## meal_detection.py -/

/-- A timestamp, reduced to the components the code can read. -/
structure Timestamp where
  hour : ℕ
  minute : ℕ
  second : ℕ
deriving DecidableEq, Repr

/-- meal_detection.py detect_meal_time: branch chain on the hour. -/
def detect_meal_time (t : Timestamp) : String :=
  let h := t.hour
  if 5 ≤ h ∧ h < 11 then "breakfast"
  else if 11 ≤ h ∧ h < 15 then "lunch"
  else if 15 ≤ h ∧ h < 18 then "snack"
  else if 18 ≤ h ∧ h < 22 then "dinner"
  else "snack"

/-! ## supabase_storage.py -/

/-- One row of the food_entries table; nullable numeric columns are
options, as the code guards each with (value or 0). -/
structure DBRow where
  id : ℕ
  session_id : Option String
  created_at : Timestamp
  food_name : String
  quantity : String
  calories : Option Dec
  protein : Option Dec
  carbs : Option Dec
  fat : Option Dec
deriving DecidableEq, Repr

/-- Macro totals dict. -/
structure Totals where
  calories : Dec
  protein_g : Dec
  carbs_g : Dec
  fat_g : Dec
deriving DecidableEq, Repr

/-- Accumulation loop of get_daily_totals_by_date. -/
def sumTotals (rows : List DBRow) : Totals :=
  rows.foldl
    (fun t r =>
      ⟨Dec.add t.calories (r.calories.getD 0), Dec.add t.protein_g (r.protein.getD 0),
       Dec.add t.carbs_g (r.carbs.getD 0), Dec.add t.fat_g (r.fat.getD 0)⟩)
    ⟨0, 0, 0, 0⟩

/-- Final rounding of get_daily_totals_by_date. -/
def roundTotals (t : Totals) : Totals :=
  ⟨Dec.ofInt (pyRound t.calories), pyRound1 t.protein_g,
   pyRound1 t.carbs_g, pyRound1 t.fat_g⟩

/-- supabase_storage.py get_daily_totals_by_date: the query outcome is an
explicit input; the except branch returns the all-zero dict. -/
def get_daily_totals_by_date (res : Except Unit (List DBRow)) : Totals :=
  match res with
  | Except.error _ => ⟨0, 0, 0, 0⟩
  | Except.ok rows => roundTotals (sumTotals rows)

/-- An item of a grouped session. -/
structure SessionItem where
  food : String
  quantity : String
  calories : Dec
  protein_g : Dec
  carbs_g : Dec
  fat_g : Dec
deriving DecidableEq, Repr

/-- A grouped session as returned by get_entries_by_date. The id is the
session_id value of the first row seen, which is None for rows stored
without a session. -/
structure Session where
  id : Option String
  timestamp : Timestamp
  meal_type : String
  items : List SessionItem
deriving DecidableEq, Repr

/-- Item dict built from one row. -/
def rowItem (r : DBRow) : SessionItem :=
  ⟨r.food_name, r.quantity, r.calories.getD 0, r.protein.getD 0,
   r.carbs.getD 0, r.fat.getD 0⟩

/-- One step of the session-grouping loop: append to an existing session
of the same key or open a new one at the end (dict insertion order). The
key is the session_id value itself: the Python default str(id) in
row.get never fires for a present NULL value, so all rows with a NULL
session_id share the single None key. -/
def addRow (acc : List (Option String × Session)) (r : DBRow) : List (Option String × Session) :=
  let k := r.session_id
  match List.find? (fun p => p.1 == k) acc with
  | some _ =>
      acc.map (fun p =>
        if p.1 == k then (p.1, { p.2 with items := p.2.items ++ [rowItem r] }) else p)
  | none =>
      acc ++ [(k, ⟨k, r.created_at, detect_meal_time r.created_at, [rowItem r]⟩)]

/-- supabase_storage.py get_entries_by_date: group rows by session, the
except branch returning the empty list. -/
def get_entries_by_date (res : Except Unit (List DBRow)) : List Session :=
  match res with
  | Except.error _ => []
  | Except.ok rows => (rows.foldl addRow []).map (fun p => p.2)

/-- supabase_storage.py update_entry_quantity: set the quantity column on
rows whose id matches; report whether anything matched. No other column
is touched (the source defers macro recalculation). -/
def update_entry_quantity (db : List DBRow) (entry_id : ℕ) (new_quantity : String) :
    List DBRow × Bool :=
  (db.map (fun r => if r.id = entry_id then { r with quantity := new_quantity } else r),
   db.any (fun r => r.id == entry_id))

/-- Stored row used in the quantity-update claim. -/
def riceRow : DBRow :=
  ⟨1, none, ⟨12, 0, 0⟩, "rice", "100g", some (Dec.ofInt 130), some (dec 27 1),
   some (Dec.ofInt 28), some (dec 3 1)⟩

/-! ## api/calorie-history.py -/

/-- One chart row of the period series. -/
structure ChartRow where
  date : ℤ
  calories : Dec
  goal_calories : ℤ
  protein_g : Dec
  carbs_g : Dec
  fat_g : Dec
deriving DecidableEq, Repr

/-- Date-range selection of get_calorie_history_by_period, with dates as
day numbers relative to an arbitrary epoch. -/
def periodRange (period : String) (now : ℤ) : ℤ × ℤ :=
  if period = "today" then (now, now)
  else if period = "week" then (now - 7, now)
  else if period = "month" then (now - 30, now)
  else (now - 7, now)

/-- api/calorie-history.py get_calorie_history_by_period: the goals query
outcome and the per-day entry queries are explicit inputs. The goal is
read once before the loop; the loop emits one row per day from the start
date through the end date inclusive; the outer except returns []. -/
def get_calorie_history_by_period (fetch : ℤ → Except Unit (List DBRow))
    (goalsRes : Except Unit (Option ℤ)) (now : ℤ) (period : String) : List ChartRow :=
  match goalsRes with
  | Except.error _ => []
  | Except.ok goals =>
      let sd := (periodRange period now).1
      let ed := (periodRange period now).2
      let goal := goals.getD 1800
      (List.range (ed - sd + 1).toNat).map (fun i : ℕ =>
        let d := sd + (i : ℤ)
        let t := get_daily_totals_by_date (fetch d)
        ⟨d, t.calories, goal, t.protein_g, t.carbs_g, t.fat_g⟩)

/-! ## Soundness of the decimal arithmetic against the rationals -/

/-- Rational value of a decimal. -/
def Dec.toRat (a : Dec) : ℚ := (a.m : ℚ) / 10 ^ a.e

lemma normAux_val (m : ℤ) (e : ℕ) :
    (((normAux m e).1 : ℚ) / 10 ^ (normAux m e).2) = (m : ℚ) / 10 ^ e := by
  induction e generalizing m with
  | zero => simp [normAux]
  | succ e ih =>
    rw [normAux]
    by_cases h : m.emod 10 = 0
    · obtain ⟨k, hk⟩ := Int.dvd_of_emod_eq_zero h
      have hdiv : m.ediv 10 = k := by
        rw [hk]; exact Int.mul_ediv_cancel_left k (by norm_num)
      rw [if_pos h, hdiv, ih, hk]
      push_cast
      rw [pow_succ]
      field_simp
      ring
    · rw [if_neg h]

lemma Dec.toRat_norm (a : Dec) : (Dec.norm a).toRat = a.toRat :=
  normAux_val a.m a.e

lemma Dec.toRat_dec (m : ℤ) (e : ℕ) : (dec m e).toRat = (m : ℚ) / 10 ^ e := by
  unfold dec
  rw [Dec.toRat_norm]
  rfl

lemma Dec.toRat_ofInt (n : ℤ) : (Dec.ofInt n).toRat = (n : ℚ) := by
  simp [Dec.ofInt, Dec.toRat]

lemma Dec.toRat_zero : (0 : Dec).toRat = 0 := by
  show ((0 : ℤ) : ℚ) / 10 ^ (0 : ℕ) = 0
  norm_num

lemma Dec.toRat_add (a b : Dec) : (Dec.add a b).toRat = a.toRat + b.toRat := by
  unfold Dec.add
  rw [Dec.toRat_norm]
  unfold Dec.toRat
  push_cast
  rw [pow_add]
  field_simp
  try ring

lemma Dec.toRat_mul (a b : Dec) : (Dec.mul a b).toRat = a.toRat * b.toRat := by
  unfold Dec.mul
  rw [Dec.toRat_norm]
  unfold Dec.toRat
  push_cast
  rw [pow_add]
  field_simp
  try ring

lemma Dec.toRat_neg (a : Dec) : (Dec.neg a).toRat = -a.toRat := by
  unfold Dec.neg Dec.toRat
  push_cast
  ring

lemma Dec.toRat_sub (a b : Dec) : (Dec.sub a b).toRat = a.toRat - b.toRat := by
  unfold Dec.sub
  rw [Dec.toRat_add, Dec.toRat_neg]
  ring

lemma Dec.toRat_shr (a : Dec) (k : ℕ) : (Dec.shr a k).toRat = a.toRat / 10 ^ k := by
  unfold Dec.shr
  rw [Dec.toRat_norm]
  unfold Dec.toRat
  rw [pow_add, ← div_div]

lemma Dec.lt_iff (a b : Dec) : a < b ↔ a.toRat < b.toRat := by
  show Dec.lt a b ↔ _
  unfold Dec.lt Dec.toRat
  rw [div_lt_div_iff₀ (by positivity) (by positivity)]
  exact_mod_cast Iff.rfl

lemma Dec.floorInt_eq (a : Dec) : a.floorInt = ⌊a.toRat⌋ := by
  unfold Dec.floorInt Dec.toRat
  rw [Int.fdiv_eq_ediv _ (by positivity)]
  rw [show ((10 : ℚ) ^ a.e) = ((10 ^ a.e : ℕ) : ℚ) by push_cast; ring]
  rw [Rat.floor_intCast_div_natCast]
  norm_num

lemma Dec.zero_lt_iff (a : Dec) : (0 : Dec) < a ↔ 0 < a.toRat := by
  rw [Dec.lt_iff, Dec.toRat_zero]

lemma Dec.pos_mul {a b : Dec} (ha : (0 : Dec) < a) (hb : (0 : Dec) < b) :
    (0 : Dec) < Dec.mul a b := by
  rw [Dec.zero_lt_iff] at ha hb ⊢
  rw [Dec.toRat_mul]
  exact mul_pos ha hb

/-! ## Helper lemmas -/

/-- The local lookup only ever tags local_database or not_found. -/
lemma lookup_local_source_cases (db : LocalDB) (food quantity : String) :
    (lookup_local_nutrition db food quantity).source = "local_database" ∨
    (lookup_local_nutrition db food quantity).source = "not_found" := by
  unfold lookup_local_nutrition
  cases h1 : List.find? (fun p => p.1.toList == lowerTrim food) db with
  | some p =>
    exact Or.inl (by simp only [String.toList] at h1; simp [h1, withSource])
  | none =>
    cases h2 : List.find?
        (fun p => charsContain p.1.toList (lowerTrim food)
          || charsContain (lowerTrim food) p.1.toList) db with
    | some p =>
      exact Or.inl (by simp only [String.toList] at h1 h2; simp [h1, h2, withSource])
    | none =>
      exact Or.inr (by simp only [String.toList] at h1 h2; simp [h1, h2])

/-! ## Claims -/

/-- Claim C7: detect_meal_time is a total function of the hour alone,
partitioning all 24 hours with no gaps and no overlaps: 5 to 10
breakfast, 11 to 14 lunch, 15 to 17 snack, 18 to 21 dinner, 22 to 23 and
0 to 4 snack; minute and second never affect the result. -/
theorem meal_classifier_partition (t : Timestamp) (hlt : t.hour < 24) :
    (detect_meal_time t = "breakfast" ↔ 5 ≤ t.hour ∧ t.hour ≤ 10) ∧
    (detect_meal_time t = "lunch" ↔ 11 ≤ t.hour ∧ t.hour ≤ 14) ∧
    (detect_meal_time t = "dinner" ↔ 18 ≤ t.hour ∧ t.hour ≤ 21) ∧
    (detect_meal_time t = "snack" ↔
      ((15 ≤ t.hour ∧ t.hour ≤ 17) ∨ 22 ≤ t.hour ∨ t.hour ≤ 4)) ∧
    (∀ m s, detect_meal_time ⟨t.hour, m, s⟩ = detect_meal_time t) := by
  obtain ⟨h, m, s⟩ := t
  refine ⟨?_, ?_, ?_, ?_, fun m2 s2 => rfl⟩ <;>
    (simp only at hlt ⊢; interval_cases h <;> simp [detect_meal_time])

/-- Claim C7 witness: the partition at the concrete hour 9. -/
theorem meal_classifier_partition_witness :
    (detect_meal_time ⟨9, 30, 0⟩ = "breakfast" ↔ 5 ≤ (9 : ℕ) ∧ (9 : ℕ) ≤ 10) ∧
    (detect_meal_time ⟨9, 30, 0⟩ = "lunch" ↔ 11 ≤ (9 : ℕ) ∧ (9 : ℕ) ≤ 14) ∧
    (detect_meal_time ⟨9, 30, 0⟩ = "dinner" ↔ 18 ≤ (9 : ℕ) ∧ (9 : ℕ) ≤ 21) ∧
    (detect_meal_time ⟨9, 30, 0⟩ = "snack" ↔
      ((15 ≤ (9 : ℕ) ∧ (9 : ℕ) ≤ 17) ∨ 22 ≤ (9 : ℕ) ∨ (9 : ℕ) ≤ 4)) ∧
    (∀ m s, detect_meal_time ⟨9, m, s⟩ = detect_meal_time ⟨9, 30, 0⟩) :=
  meal_classifier_partition ⟨9, 30, 0⟩ (by decide)

/-- Claim C4 counterexample: the normalizer maps the phrase 2 eggs to 2
grams, not about 100 grams: the letter g inside the word eggs triggers
the gram branch, and no per-unit gram table exists in the code. -/
theorem two_eggs_not_hundred_grams :
    parse_quantity_to_grams "2 eggs" = Dec.ofInt 2 ∧
    ¬ parse_quantity_to_grams "2 eggs" = Dec.ofInt 100 := by decide

/-- Claim C4 as amended: an explicit gram phrase is exact, but countable
phrases fall into the gram branch through the letter g of the food word,
yielding the bare count as grams; the per-egg constant lives only in the
external segmentation step. -/
theorem normalize_scenarios_actual :
    parse_quantity_to_grams "150g" = Dec.ofInt 150 ∧
    parse_quantity_to_grams "2 eggs" = Dec.ofInt 2 ∧
    parse_quantity_to_grams "1 egg" = Dec.ofInt 1 := by decide

/-- Claim C5 counterexample: the macro-scaling keyword scan has no
teaspoon entry, so a teaspoon phrase falls to the default factor of one
per-100g unit instead of the claimed 5 gram equivalent (which would give
8 calories here); and the gram normalizer defaults a keywordless count to
its magnitude in grams, not magnitude times 100. -/
theorem unit_scan_differs_from_claim :
    (calculate_macros ⟨Dec.ofInt 165, Dec.ofInt 31, 0, dec 36 1⟩ "1 teaspoon").calories
      = Dec.ofInt 165 ∧
    pyRound (Dec.mul (Dec.ofInt 165) (dec 5 2)) = 8 ∧
    ¬ (Dec.ofInt 165 = Dec.ofInt 8) ∧
    parse_quantity_to_grams "2 pieces" = Dec.ofInt 2 ∧
    ¬ (Dec.ofInt 2 = Dec.mul (Dec.ofInt 2) (Dec.ofInt 100)) := by decide

/-- Claim C5 as amended: the two keyword scans as implemented. The macro
scaler knows kilogram, gram, cup, tablespoon, scoop, piece, not specified
and pound, with everything else, teaspoon included, treated as per-100g
multiples; the gram normalizer checks the letter g first, then kg, cup,
tablespoon, teaspoon, oz, lb and pound, and otherwise returns the bare
magnitude as grams. -/
theorem unit_scan_actual_table :
    (calculate_macros ⟨Dec.ofInt 100, 0, 0, 0⟩ "1 kilogram").calories = Dec.ofInt 1000 ∧
    (calculate_macros ⟨Dec.ofInt 100, 0, 0, 0⟩ "200 grams").calories = Dec.ofInt 200 ∧
    (calculate_macros ⟨Dec.ofInt 100, 0, 0, 0⟩ "1 cup").calories = Dec.ofInt 150 ∧
    (calculate_macros ⟨Dec.ofInt 100, 0, 0, 0⟩ "1 tablespoon").calories = Dec.ofInt 15 ∧
    (calculate_macros ⟨Dec.ofInt 100, 0, 0, 0⟩ "1 scoop").calories = Dec.ofInt 30 ∧
    (calculate_macros ⟨Dec.ofInt 100, 0, 0, 0⟩ "2 pieces").calories = Dec.ofInt 200 ∧
    (calculate_macros ⟨Dec.ofInt 100, 0, 0, 0⟩ "1 pound").calories = Dec.ofInt 454 ∧
    (calculate_macros ⟨Dec.ofInt 100, 0, 0, 0⟩ "1 teaspoon").calories = Dec.ofInt 100 ∧
    (calculate_macros ⟨Dec.ofInt 100, 0, 0, 0⟩ "3").calories = Dec.ofInt 300 ∧
    parse_quantity_to_grams "1 teaspoon" = Dec.ofInt 5 ∧
    parse_quantity_to_grams "1 oz" = dec 2835 2 ∧
    parse_quantity_to_grams "1 lb" = dec 4536 1 ∧
    parse_quantity_to_grams "2 pieces" = Dec.ofInt 2 := by decide

/-- Claim C6 counterexample: the word half is checked before numeric
extraction, so a phrase holding both the numeral 2 and the word half gets
magnitude one half, not 2. -/
theorem fraction_word_overrides_numeric :
    parse_quantity "2 and a half cups" = dec 5 1 ∧
    ¬ parse_quantity "2 and a half cups" = Dec.ofInt 2 := by decide

/-- Claim C6 as amended: the fraction substrings half, 0.5, quarter and
0.25 take precedence over any numeric token; only in their absence is the
first numeric token used, with default magnitude 1. -/
theorem magnitude_precedence_actual (s : String)
    (h1 : charsContain (lowerTrim s) "half".toList = false)
    (h2 : charsContain (lowerTrim s) "0.5".toList = false)
    (h3 : charsContain (lowerTrim s) "quarter".toList = false)
    (h4 : charsContain (lowerTrim s) "0.25".toList = false) :
    parse_quantity s = (firstNumber (lowerTrim s)).getD (Dec.ofInt 1) ∧
    parse_quantity "half cup" = dec 5 1 ∧
    parse_quantity "quarter pound" = dec 25 2 ∧
    parse_quantity "a banana" = Dec.ofInt 1 := by
  refine ⟨?_, by decide, by decide, by decide⟩
  unfold parse_quantity
  simp only [h1, h2, h3, h4, Bool.or_self, Bool.false_eq_true, if_false]
  cases hf : firstNumber (lowerTrim s) <;> simp [hf]

/-- Claim C6 witness: the amended statement at the phrase 2 cups. -/
theorem magnitude_precedence_actual_witness :
    (parse_quantity "2 cups" = (firstNumber (lowerTrim "2 cups")).getD (Dec.ofInt 1) ∧
     parse_quantity "half cup" = dec 5 1 ∧
     parse_quantity "quarter pound" = dec 25 2 ∧
     parse_quantity "a banana" = Dec.ofInt 1) :=
  magnitude_precedence_actual "2 cups" (by decide) (by decide) (by decide) (by decide)

/-- Claim C1 counterexample: with the remote source empty and no local
match, the chain returns all-zero macros tagged not_found, not the
claimed mass-proportional default, which would be 225 calories at 150
grams. -/
theorem resolve_default_not_mass_proportional :
    lookup_nutrition none [("chicken breast", ⟨Dec.ofInt 165, Dec.ofInt 31, 0, dec 36 1⟩)]
        "quinoa" "150 grams" = ⟨0, 0, 0, 0, "not_found"⟩ ∧
    pyRound (Dec.mul (Dec.ofInt 150) (dec 15 1)) = 225 ∧
    ¬ ((0 : Dec) = Dec.ofInt 225) := by decide

/-- Claim C1 as amended: for every food, quantity, table and remote
outcome the chain is total and tags its result with usda, local_database
or not_found; and whenever the remote source yields nothing and the name
matches no local entry, exactly or by substring, the result is the
all-zero record tagged not_found (the repository tests expect zero
calories for an unknown food from this chain). -/
theorem resolve_total_source_tags (remote : Option NutritionResult) (db : LocalDB)
    (food quantity : String) :
    ((lookup_nutrition remote db food quantity).source = "usda" ∨
     (lookup_nutrition remote db food quantity).source = "local_database" ∨
     (lookup_nutrition remote db food quantity).source = "not_found") ∧
    (List.find? (fun p => p.1.toList == lowerTrim food) db = none →
     List.find? (fun p => charsContain p.1.toList (lowerTrim food)
            || charsContain (lowerTrim food) p.1.toList) db = none →
     lookup_nutrition none db food quantity = ⟨0, 0, 0, 0, "not_found"⟩) := by
  constructor
  · cases remote with
    | none =>
      rcases lookup_local_source_cases db food quantity with h | h
      · exact Or.inr (Or.inl h)
      · exact Or.inr (Or.inr h)
    | some r =>
      by_cases hr : r.source = "usda"
      · refine Or.inl ?_
        show (if r.source = "usda" then r
          else lookup_local_nutrition db food quantity).source = "usda"
        rw [if_pos hr]
        exact hr
      · rcases lookup_local_source_cases db food quantity with h | h
        · refine Or.inr (Or.inl ?_)
          show (if r.source = "usda" then r
            else lookup_local_nutrition db food quantity).source = "local_database"
          rw [if_neg hr]
          exact h
        · refine Or.inr (Or.inr ?_)
          show (if r.source = "usda" then r
            else lookup_local_nutrition db food quantity).source = "not_found"
          rw [if_neg hr]
          exact h
  · intro h1 h2
    show lookup_local_nutrition db food quantity = _
    unfold lookup_local_nutrition
    simp only [String.toList] at h1 h2
    simp [h1, h2]

/-- Claim C1 witness: the amended statement at a food absent from the
table, with the no-match hypotheses of the zero-fallback part discharged
concretely. -/
theorem resolve_total_source_tags_witness :
    (((lookup_nutrition none
        [("chicken breast", ⟨Dec.ofInt 165, Dec.ofInt 31, 0, dec 36 1⟩)]
        "quinoa" "150 grams").source = "usda" ∨
      (lookup_nutrition none
        [("chicken breast", ⟨Dec.ofInt 165, Dec.ofInt 31, 0, dec 36 1⟩)]
        "quinoa" "150 grams").source = "local_database" ∨
      (lookup_nutrition none
        [("chicken breast", ⟨Dec.ofInt 165, Dec.ofInt 31, 0, dec 36 1⟩)]
        "quinoa" "150 grams").source = "not_found") ∧
     lookup_nutrition none
        [("chicken breast", ⟨Dec.ofInt 165, Dec.ofInt 31, 0, dec 36 1⟩)]
        "quinoa" "150 grams" = ⟨0, 0, 0, 0, "not_found"⟩) :=
  ⟨(resolve_total_source_tags none
      [("chicken breast", ⟨Dec.ofInt 165, Dec.ofInt 31, 0, dec 36 1⟩)]
      "quinoa" "150 grams").1,
   (resolve_total_source_tags none
      [("chicken breast", ⟨Dec.ofInt 165, Dec.ofInt 31, 0, dec 36 1⟩)]
      "quinoa" "150 grams").2 (by decide) (by decide)⟩

/-- Claim C2 counterexample: the phrase 0g is normalized to zero grams,
violating the claimed positivity; no magnitude renormalization to one
happens. -/
theorem grams_zero_for_zero_magnitude :
    parse_quantity_to_grams "0g" = 0 ∧
    ¬ ((0 : Dec) < parse_quantity_to_grams "0g") := by decide

/-- Claim C2 as amended: the gram value is positive whenever the first
numeric token of the phrase is positive, and a phrase with no numeric
token defaults to 100 grams; only an explicit zero magnitude produces
zero grams. -/
theorem grams_positive_for_positive_token (s : String) (v : Dec)
    (hv : firstNumber (lowerTrim s) = some v) (hvpos : (0 : Dec) < v) :
    (0 : Dec) < parse_quantity_to_grams s ∧
    parse_quantity_to_grams "some almonds" = Dec.ofInt 100 := by
  refine ⟨?_, by decide⟩
  unfold parse_quantity_to_grams
  simp only [hv]
  split_ifs <;> first
    | exact hvpos
    | exact Dec.pos_mul hvpos (by decide)

/-- Claim C2 witness: positivity at the phrase 2 eggs. -/
theorem grams_positive_for_positive_token_witness :
    ((0 : Dec) < parse_quantity_to_grams "2 eggs" ∧
     parse_quantity_to_grams "some almonds" = Dec.ofInt 100) :=
  grams_positive_for_positive_token "2 eggs" (Dec.ofInt 2) (by decide) (by decide)

/-- Claim C3: with the remote source unavailable, local resolution tries
an exact match on the lowered trimmed name first, otherwise takes the
first entry in table insertion order related by substring in either
direction; the chicken breast scenario at 150 grams yields 248 calories,
46.5 protein, 0 carbs, 5.4 fat from the local database, an exact match
beats an earlier substring entry, and the query is case-insensitive. -/
theorem local_lookup_order_and_scenario (db : LocalDB) (food quantity : String)
    (e : String × NutritionData)
    (hnoexact : List.find? (fun p => p.1.toList == lowerTrim food) db = none)
    (hsub : List.find? (fun p => charsContain p.1.toList (lowerTrim food)
              || charsContain (lowerTrim food) p.1.toList) db = some e) :
    lookup_nutrition none db food quantity
      = withSource (calculate_macros e.2 quantity) "local_database" ∧
    lookup_nutrition none [("chicken breast", ⟨Dec.ofInt 165, Dec.ofInt 31, 0, dec 36 1⟩)]
      "chicken breast" "150 grams"
      = ⟨Dec.ofInt 248, dec 465 1, 0, dec 54 1, "local_database"⟩ ∧
    lookup_nutrition none
      [("chicken", ⟨Dec.ofInt 100, Dec.ofInt 1, Dec.ofInt 1, Dec.ofInt 1⟩),
       ("chicken breast", ⟨Dec.ofInt 165, Dec.ofInt 31, 0, dec 36 1⟩)]
      "chicken breast" "150 grams"
      = ⟨Dec.ofInt 248, dec 465 1, 0, dec 54 1, "local_database"⟩ ∧
    lookup_nutrition none [("chicken breast", ⟨Dec.ofInt 165, Dec.ofInt 31, 0, dec 36 1⟩)]
      "Chicken Breast" "150 grams"
      = ⟨Dec.ofInt 248, dec 465 1, 0, dec 54 1, "local_database"⟩ := by
  refine ⟨?_, by decide, by decide, by decide⟩
  show lookup_local_nutrition db food quantity = _
  unfold lookup_local_nutrition
  simp only [String.toList] at hnoexact hsub
  simp [hnoexact, hsub]

/-- Claim C3 witness: the substring fallback at the query chicken against
the table key chicken breast. -/
theorem local_lookup_order_and_scenario_witness :
    (lookup_nutrition none [("chicken breast", ⟨Dec.ofInt 165, Dec.ofInt 31, 0, dec 36 1⟩)]
        "chicken" "100 grams"
      = withSource
          (calculate_macros
            (("chicken breast", (⟨Dec.ofInt 165, Dec.ofInt 31, 0, dec 36 1⟩ : NutritionData)).2
            : NutritionData) "100 grams")
          "local_database" ∧
     lookup_nutrition none [("chicken breast", ⟨Dec.ofInt 165, Dec.ofInt 31, 0, dec 36 1⟩)]
       "chicken breast" "150 grams"
       = ⟨Dec.ofInt 248, dec 465 1, 0, dec 54 1, "local_database"⟩ ∧
     lookup_nutrition none
       [("chicken", ⟨Dec.ofInt 100, Dec.ofInt 1, Dec.ofInt 1, Dec.ofInt 1⟩),
        ("chicken breast", ⟨Dec.ofInt 165, Dec.ofInt 31, 0, dec 36 1⟩)]
       "chicken breast" "150 grams"
       = ⟨Dec.ofInt 248, dec 465 1, 0, dec 54 1, "local_database"⟩ ∧
     lookup_nutrition none [("chicken breast", ⟨Dec.ofInt 165, Dec.ofInt 31, 0, dec 36 1⟩)]
       "Chicken Breast" "150 grams"
       = ⟨Dec.ofInt 248, dec 465 1, 0, dec 54 1, "local_database"⟩) :=
  local_lookup_order_and_scenario
    [("chicken breast", ⟨Dec.ofInt 165, Dec.ofInt 31, 0, dec 36 1⟩)]
    "chicken" "100 grams"
    ("chicken breast", ⟨Dec.ofInt 165, Dec.ofInt 31, 0, dec 36 1⟩)
    (by decide) (by decide)

/-- Claim C10: every read or aggregation operation absorbs a storage
failure: totals queries return the zero dict, entry queries the empty
list, and the period series the empty list; for totals and entries the
failure output equals the output for a day with no entries. -/
theorem storage_failure_absorbed :
    get_daily_totals_by_date (Except.error ()) = ⟨0, 0, 0, 0⟩ ∧
    get_entries_by_date (Except.error ()) = [] ∧
    (∀ fetch : ℤ → Except Unit (List DBRow), ∀ now : ℤ, ∀ period : String,
      get_calorie_history_by_period fetch (Except.error ()) now period = []) ∧
    get_daily_totals_by_date (Except.ok []) = ⟨0, 0, 0, 0⟩ ∧
    get_entries_by_date (Except.ok []) = [] :=
  ⟨rfl, rfl, fun _ _ _ => rfl, by decide, rfl⟩

/-- Claim C9 counterexample: updating the quantity of a stored entry
rewrites only the quantity string; the stored macros stay as they were,
while a full re-resolution of the new phrase against the local table
would give 260 calories instead of the stored 130. -/
theorem quantity_update_keeps_macros :
    (update_entry_quantity [riceRow] 1 "200 grams").1
      = [{ riceRow with quantity := "200 grams" }] ∧
    (update_entry_quantity [riceRow] 1 "200 grams").2 = true ∧
    ({ riceRow with quantity := "200 grams" } : DBRow).calories = some (Dec.ofInt 130) ∧
    (lookup_local_nutrition [("rice", ⟨Dec.ofInt 130, dec 27 1, Dec.ofInt 28, dec 3 1⟩)]
        "rice" "200 grams").calories = Dec.ofInt 260 ∧
    ¬ (some (Dec.ofInt 130) = some (Dec.ofInt 260)) := by decide

/-- Claim C9 as amended: the update changes the quantity string of the
matching entry and nothing else: identifier, session, timestamp, food
name and all four macro columns are those of the stored row, with no
re-resolution. -/
theorem update_entry_quantity_frame (db : List DBRow) (eid : ℕ) (q : String) (r : DBRow)
    (hr : r ∈ (update_entry_quantity db eid q).1) :
    ∃ r0, r0 ∈ db ∧ r.id = r0.id ∧ r.session_id = r0.session_id ∧
      r.created_at = r0.created_at ∧ r.food_name = r0.food_name ∧
      r.calories = r0.calories ∧ r.protein = r0.protein ∧
      r.carbs = r0.carbs ∧ r.fat = r0.fat ∧
      (r.id = eid → r.quantity = q) ∧ (¬ r.id = eid → r.quantity = r0.quantity) := by
  unfold update_entry_quantity at hr
  simp only [List.mem_map] at hr
  obtain ⟨r0, hmem, heq⟩ := hr
  by_cases h : r0.id = eid
  · rw [if_pos h] at heq
    subst heq
    exact ⟨r0, hmem, rfl, rfl, rfl, rfl, rfl, rfl, rfl, rfl, fun _ => rfl,
      fun hne => absurd h hne⟩
  · rw [if_neg h] at heq
    subst heq
    exact ⟨r0, hmem, rfl, rfl, rfl, rfl, rfl, rfl, rfl, rfl,
      fun hEq => absurd hEq h, fun _ => rfl⟩

/-- Claim C9 witness: the frame condition at the concrete updated row. -/
theorem update_entry_quantity_frame_witness :
    ∃ r0, r0 ∈ [riceRow] ∧
      ({ riceRow with quantity := "200 grams" } : DBRow).id = r0.id ∧
      ({ riceRow with quantity := "200 grams" } : DBRow).session_id = r0.session_id ∧
      ({ riceRow with quantity := "200 grams" } : DBRow).created_at = r0.created_at ∧
      ({ riceRow with quantity := "200 grams" } : DBRow).food_name = r0.food_name ∧
      ({ riceRow with quantity := "200 grams" } : DBRow).calories = r0.calories ∧
      ({ riceRow with quantity := "200 grams" } : DBRow).protein = r0.protein ∧
      ({ riceRow with quantity := "200 grams" } : DBRow).carbs = r0.carbs ∧
      ({ riceRow with quantity := "200 grams" } : DBRow).fat = r0.fat ∧
      (({ riceRow with quantity := "200 grams" } : DBRow).id = 1 →
        ({ riceRow with quantity := "200 grams" } : DBRow).quantity = "200 grams") ∧
      (¬ ({ riceRow with quantity := "200 grams" } : DBRow).id = 1 →
        ({ riceRow with quantity := "200 grams" } : DBRow).quantity = r0.quantity) :=
  update_entry_quantity_frame [riceRow] 1 "200 grams"
    { riceRow with quantity := "200 grams" } (by decide)

/-- The week series is the eightfold map over day offsets 0 to 7. -/
lemma week_series_eq (fetch : ℤ → Except Unit (List DBRow)) (goals : Option ℤ) (now : ℤ) :
    get_calorie_history_by_period fetch (Except.ok goals) now "week"
      = (List.range 8).map (fun j : ℕ =>
          ⟨now - 7 + (j : ℤ),
           (get_daily_totals_by_date (fetch (now - 7 + (j : ℤ)))).calories,
           goals.getD 1800,
           (get_daily_totals_by_date (fetch (now - 7 + (j : ℤ)))).protein_g,
           (get_daily_totals_by_date (fetch (now - 7 + (j : ℤ)))).carbs_g,
           (get_daily_totals_by_date (fetch (now - 7 + (j : ℤ)))).fat_g⟩) := by
  unfold get_calorie_history_by_period periodRange
  rw [if_neg (by decide : ¬ ("week" = "today"))]
  simp only [if_true]
  have h8 : ((now - 7, now).2 - (now - 7, now).1 + 1 : ℤ) = (8 : ℤ) := by
    show now - (now - 7) + 1 = (8 : ℤ)
    ring
  rw [h8]
  rfl

/-- Claim C8: for every storage state, the week series has exactly 8
rows, one per day from 7 days back through today inclusive in ascending
date order, a day with an empty result carries explicit zero totals, and
every row carries the goal value read once at query time. -/
theorem week_series_shape (fetch : ℤ → Except Unit (List DBRow)) (goals : Option ℤ)
    (now : ℤ) (i : ℕ) (hi : i < 8) :
    (get_calorie_history_by_period fetch (Except.ok goals) now "week").length = 8 ∧
    ∃ row : ChartRow,
      (get_calorie_history_by_period fetch (Except.ok goals) now "week")[i]? = some row ∧
      row.date = now - 7 + (i : ℤ) ∧
      row.goal_calories = goals.getD 1800 ∧
      (∀ j : ℕ, j < 8 → i < j → ∀ rj : ChartRow,
        (get_calorie_history_by_period fetch (Except.ok goals) now "week")[j]? = some rj →
        row.date < rj.date) ∧
      (fetch (now - 7 + (i : ℤ)) = Except.ok [] →
        row.calories = 0 ∧ row.protein_g = 0 ∧ row.carbs_g = 0 ∧ row.fat_g = 0) := by
  have hser := week_series_eq fetch goals now
  have hrow : ∀ k : ℕ, k < 8 →
      (get_calorie_history_by_period fetch (Except.ok goals) now "week")[k]?
        = some ⟨now - 7 + (k : ℤ),
            (get_daily_totals_by_date (fetch (now - 7 + (k : ℤ)))).calories,
            goals.getD 1800,
            (get_daily_totals_by_date (fetch (now - 7 + (k : ℤ)))).protein_g,
            (get_daily_totals_by_date (fetch (now - 7 + (k : ℤ)))).carbs_g,
            (get_daily_totals_by_date (fetch (now - 7 + (k : ℤ)))).fat_g⟩ := by
    intro k hk
    rw [hser, List.getElem?_map, List.getElem?_range hk]
    rfl
  refine ⟨by rw [hser]; simp, _, hrow i hi, rfl, rfl, ?_, ?_⟩
  · intro j hj hij rj hrj
    rw [hrow j hj] at hrj
    obtain rfl := Option.some.inj hrj
    show now - 7 + (i : ℤ) < now - 7 + (j : ℤ)
    have hij2 : (i : ℤ) < (j : ℤ) := by exact_mod_cast hij
    omega
  · intro hf
    rw [hf]
    refine ⟨?_, ?_, ?_, ?_⟩
    · show (get_daily_totals_by_date (Except.ok [])).calories = 0
      decide
    · show (get_daily_totals_by_date (Except.ok [])).protein_g = 0
      decide
    · show (get_daily_totals_by_date (Except.ok [])).carbs_g = 0
      decide
    · show (get_daily_totals_by_date (Except.ok [])).fat_g = 0
      decide

/-- Claim C8 witness: the week series shape with empty storage at day
offset 3. -/
theorem week_series_shape_witness :
    (get_calorie_history_by_period (fun _ => Except.ok []) (Except.ok none) 0 "week").length
      = 8 ∧
    ∃ row : ChartRow,
      (get_calorie_history_by_period (fun _ => Except.ok [])
        (Except.ok none) 0 "week")[(3 : ℕ)]? = some row ∧
      row.date = 0 - 7 + ((3 : ℕ) : ℤ) ∧
      row.goal_calories = (none : Option ℤ).getD 1800 ∧
      (∀ j : ℕ, j < 8 → 3 < j → ∀ rj : ChartRow,
        (get_calorie_history_by_period (fun _ => Except.ok [])
          (Except.ok none) 0 "week")[j]? = some rj →
        row.date < rj.date) ∧
      ((fun _ : ℤ => (Except.ok [] : Except Unit (List DBRow))) (0 - 7 + ((3 : ℕ) : ℤ))
          = Except.ok [] →
        row.calories = 0 ∧ row.protein_g = 0 ∧ row.carbs_g = 0 ∧ row.fat_g = 0) :=
  week_series_shape (fun _ => Except.ok []) none 0 3 (by decide)
